import Mathlib

/-!
Verification development for the whatsmiau ↔ Chatwoot bridge.

Shallow embedding of the Go sources:
- `lib/whatsmiau/chatwoot_service.go` (inbound dispatcher `HandleMessage`,
  contact/conversation resolvers, dedup guard `checkMessageExists`,
  `sendMessage`/`sendMediaMessage`, `extractPhone`, `extractMediaMeta`,
  `cleanMimetype`, `mimetypeToExt`, `extractMessageText`),
- `server/controllers/chatwoot.go` (outbound `handleTextMessage`),
- the sibling outbound controller (`handleOutgoingMessage` with its
  attachment routing and presence bracketing).

Go strings are modelled as `List Char`; Go `int` as `Int`.  External
effects (HTTP responses of the desk API, the dedup store, the messaging
capability set) are supplied by explicit environment records, and each
embedded handler additionally returns the list of external operations it
performed, in order, so that claims about "which calls are made" are
statements about that trace.
-/

namespace Whatsmiau

/-- Characters of a Go string literal. -/
def strToL (s : String) : List Char := s.data

/-! ### Go `strings` helpers, modelled on `List Char` -/

/-- Go `strings.Split(s, sep)` for a one-character separator (the source
only splits on `"@"`, `":"`).  `Split("", sep) = [""]`. -/
def splitOnChar (sep : Char) : List Char → List (List Char)
  | [] => [[]]
  | c :: rest =>
    match splitOnChar sep rest with
    | [] => [[c]]
    | h :: t => if c = sep then [] :: h :: t else (c :: h) :: t

/-- Go `strings.SplitN(s, sep, 2)[0]` for a one-character separator:
everything strictly before the first occurrence of `sep`. -/
def takeUntilChar (sep : Char) : List Char → List Char
  | [] => []
  | c :: rest => if c = sep then [] else c :: takeUntilChar sep rest

/-- The white-space predicate of Go `unicode.IsSpace` restricted to the
characters that occur in mimetype strings (ASCII white space and the two
Latin-1 spaces Go additionally recognises). -/
def goIsSpace (c : Char) : Bool :=
  c = ' ' || c = '\t' || c = '\n' || c = '\x0b' || c = '\x0c' || c = '\r' ||
  c = '\x85' || c = '\xa0'

/-- Go `strings.TrimSpace`. -/
def goTrimSpace (s : List Char) : List Char :=
  ((s.dropWhile goIsSpace).reverse.dropWhile goIsSpace).reverse

/-- Boolean prefix test (`strings.HasPrefix pre s` with the arguments in
that order). -/
def isPrefixB : List Char → List Char → Bool
  | [], _ => true
  | _ :: _, [] => false
  | a :: as, b :: bs => a = b && isPrefixB as bs

/-- Go `strings.Contains s sub`. -/
def goContains : List Char → List Char → Bool
  | [], sub => sub.isEmpty
  | c :: rest, sub => isPrefixB sub (c :: rest) || goContains rest sub

/-- Go `strings.TrimPrefix s pre`. -/
def goTrimPrefix (s pre : List Char) : List Char :=
  if isPrefixB pre s then s.drop pre.length else s

/-- Go `strings.ReplaceAll s old new` for a non-empty `old` (the source
only replaces `"**"`; Go's special empty-`old` behaviour is not needed). -/
def goReplaceAll (old new : List Char) : List Char → List Char
  | [] => []
  | c :: rest =>
    if isPrefixB old (c :: rest) ∧ old ≠ [] then
      new ++ goReplaceAll old new ((c :: rest).drop old.length)
    else
      c :: goReplaceAll old new rest
  termination_by l => l.length
  decreasing_by
    · simp only [List.length_drop, List.length_cons]
      have hold : 0 < old.length := by
        cases old with
        | nil => simp_all
        | cons o os => simp
      omega
    · simp

/-! ### `extractPhone` (chatwoot_service.go lines 742–748)

```go
func extractPhone(remoteJid string) string {
    parts := strings.Split(remoteJid, "@")
    if len(parts) == 0 { return "" }
    return strings.Split(parts[0], ":")[0]
}
``` -/

def extractPhone (remoteJid : List Char) : List Char :=
  match splitOnChar '@' remoteJid with
  | [] => []
  | p :: _ =>
    match splitOnChar ':' p with
    | [] => []
    | q :: _ => q

/-! ### Lemmas about the split helpers -/

theorem splitOnChar_ne_nil (sep : Char) (l : List Char) :
    splitOnChar sep l ≠ [] := by
  cases l with
  | nil => simp [splitOnChar]
  | cons c rest =>
    have hstep : splitOnChar sep (c :: rest) =
        match splitOnChar sep rest with
        | [] => [[c]]
        | h :: t => if c = sep then [] :: h :: t else (c :: h) :: t := rfl
    rw [hstep]
    cases splitOnChar sep rest with
    | nil => simp
    | cons h t => by_cases hcs : c = sep <;> simp [hcs]

theorem splitOnChar_of_not_mem {sep : Char} {l : List Char} (h : sep ∉ l) :
    splitOnChar sep l = [l] := by
  induction l with
  | nil => rfl
  | cons c rest ih =>
    have hc : c ≠ sep := by
      intro hcs; exact h (hcs ▸ List.mem_cons_self c rest)
    have hrest : sep ∉ rest := fun hm => h (List.mem_cons_of_mem c hm)
    have hstep : splitOnChar sep (c :: rest) =
        match splitOnChar sep rest with
        | [] => [[c]]
        | h :: t => if c = sep then [] :: h :: t else (c :: h) :: t := rfl
    rw [hstep, ih hrest]
    simp [hc]

theorem splitOnChar_append_sep {sep : Char} {l r : List Char} (h : sep ∉ l) :
    splitOnChar sep (l ++ sep :: r) = l :: splitOnChar sep r := by
  induction l with
  | nil =>
    have hstep : splitOnChar sep ([] ++ sep :: r) =
        match splitOnChar sep r with
        | [] => [[sep]]
        | h :: t => if sep = sep then [] :: h :: t else (sep :: h) :: t := rfl
    rw [hstep]
    cases hr : splitOnChar sep r with
    | nil => exact absurd hr (splitOnChar_ne_nil sep r)
    | cons h' t => simp [← hr]
  | cons c rest ih =>
    have hc : c ≠ sep := by
      intro hcs; exact h (hcs ▸ List.mem_cons_self c rest)
    have hrest : sep ∉ rest := fun hm => h (List.mem_cons_of_mem c hm)
    have hstep : splitOnChar sep ((c :: rest) ++ sep :: r) =
        match splitOnChar sep (rest ++ sep :: r) with
        | [] => [[c]]
        | h :: t => if c = sep then [] :: h :: t else (c :: h) :: t := rfl
    rw [hstep, ih hrest]
    simp [hc]

/-- C5 (claim): for every peer id of the form `"<digits>:<n>@<domain>"`,
`extractPhone` (split on `'@'`, then the segment before the first `':'`)
returns exactly `<digits>`. -/
theorem extractPhone_multidevice (digits n domain : List Char)
    (hd : ∀ c ∈ digits, c.isDigit) (hn : ∀ c ∈ n, c.isDigit) :
    extractPhone (digits ++ ':' :: (n ++ '@' :: domain)) = digits := by
  have hat_digits : '@' ∉ digits := by
    intro hm
    have := hd '@' hm
    simp [Char.isDigit] at this
  have hcol_digits : ':' ∉ digits := by
    intro hm
    have := hd ':' hm
    simp [Char.isDigit] at this
  have hat_n : '@' ∉ n := by
    intro hm
    have := hn '@' hm
    simp [Char.isDigit] at this
  have hat : '@' ∉ digits ++ ':' :: n := by
    intro hm
    rcases List.mem_append.mp hm with h1 | h2
    · exact hat_digits h1
    · rcases List.mem_cons.mp h2 with h3 | h4
      · exact absurd h3.symm (by decide)
      · exact hat_n h4
  have hassoc : digits ++ ':' :: (n ++ '@' :: domain) =
      (digits ++ ':' :: n) ++ '@' :: domain := by
    simp
  have h1 : splitOnChar '@' (digits ++ ':' :: (n ++ '@' :: domain)) =
      (digits ++ ':' :: n) :: splitOnChar '@' domain := by
    rw [hassoc]; exact splitOnChar_append_sep hat
  unfold extractPhone
  rw [h1]
  show (match splitOnChar ':' (digits ++ ':' :: n) with
        | [] => []
        | q :: _ => q) = digits
  rw [splitOnChar_append_sep hcol_digits]

/-- Witness for C5 at the concrete peer id `"5511999:2@s.whatsapp.net"`. -/
theorem extractPhone_multidevice_witness :
    extractPhone (strToL "5511999:2@s.whatsapp.net") = strToL "5511999" := by
  have h := extractPhone_multidevice (strToL "5511999") (strToL "2")
    (strToL "s.whatsapp.net") (by decide) (by decide)
  exact h

/-! ### Inbound message data model

`WookMessageData` is declared outside the bridge sources; its shape is
taken from every field access the bridge performs on it
(`Key.RemoteJid`, `Key.FromMe`, `Key.Id`, `PushName`, `MessageType`,
`Message.{Conversation, Base64, ImageMessage, AudioMessage, VideoMessage,
DocumentMessage, ContactMessage, ReactionMessage}`), plus the
network-supplied timestamp the spec's data model lists on every inbound
message.  The bridge code never reads the timestamp field. -/

structure ImageMsg where
  mimetype : List Char
  caption : List Char

structure AudioMsg where
  mimetype : List Char

structure VideoMsg where
  mimetype : List Char
  caption : List Char

structure DocumentMsg where
  mimetype : List Char
  fileName : List Char
  caption : List Char

structure ContactMsg where
  displayName : List Char
  vcard : List Char

structure ReactionMsg where
  text : List Char

structure WookMessage where
  conversation : List Char
  base64 : List Char
  imageMessage : Option ImageMsg
  audioMessage : Option AudioMsg
  videoMessage : Option VideoMsg
  documentMessage : Option DocumentMsg
  contactMessage : Option ContactMsg
  reactionMessage : Option ReactionMsg

structure WookKey where
  remoteJid : List Char
  fromMe : Bool
  id : List Char

structure WookMessageData where
  key : Option WookKey
  pushName : List Char
  messageType : List Char
  message : Option WookMessage
  messageTimestamp : Int

/-! ### `cleanMimetype` and `mimetypeToExt` (chatwoot_service.go 807–844)

```go
func cleanMimetype(raw, fallback string) string {
    if raw == "" { return fallback }
    parts := strings.SplitN(raw, ";", 2)
    clean := strings.TrimSpace(parts[0])
    if clean == "" { return fallback }
    return clean
}
``` -/

def cleanMimetype (raw fallback : List Char) : List Char :=
  if raw = [] then fallback
  else if goTrimSpace (takeUntilChar ';' raw) = [] then fallback
  else goTrimSpace (takeUntilChar ';' raw)

def mimetypeToExt (mimetype fallback : List Char) : List Char :=
  if mimetype = strToL "image/jpeg" then strToL "jpg"
  else if mimetype = strToL "image/png" then strToL "png"
  else if mimetype = strToL "image/gif" then strToL "gif"
  else if mimetype = strToL "image/webp" then strToL "webp"
  else if mimetype = strToL "video/mp4" then strToL "mp4"
  else if mimetype = strToL "video/3gpp" then strToL "3gp"
  else if mimetype = strToL "audio/ogg" then strToL "ogg"
  else if mimetype = strToL "audio/mp4" then strToL "m4a"
  else if mimetype = strToL "application/pdf" then strToL "pdf"
  else fallback

/-! ### `extractMediaMeta` (chatwoot_service.go 751–804) -/

structure MediaMeta where
  filename : List Char
  caption : List Char
  mimetype : List Char
deriving DecidableEq

/-- The Go switch over the message's media variant, in source order:
audio, video, image, document, then the default branch. -/
def extractMediaMeta (data : WookMessageData) : MediaMeta :=
  match data.message with
  | none =>
    { filename := strToL "file.bin", caption := [],
      mimetype := strToL "application/octet-stream" }
  | some msg =>
    let id := match data.key with
      | some k => k.id
      | none => []
    match msg.audioMessage with
    | some audio =>
      -- WhatsApp PTT arrives as "audio/ogg; codecs=opus" — cleaned for Chatwoot
      let raw := audio.mimetype
      if goContains raw (strToL "ogg") then
        { filename := id ++ strToL ".ogg", caption := [],
          mimetype := strToL "audio/ogg" }
      else if goContains raw (strToL "mp4") then
        { filename := id ++ strToL ".m4a", caption := [],
          mimetype := strToL "audio/mp4" }
      else
        { filename := id ++ strToL ".ogg", caption := [],
          mimetype := strToL "audio/ogg" }
    | none =>
    match msg.videoMessage with
    | some video =>
      { filename := id ++ strToL ".mp4", caption := video.caption,
        mimetype := cleanMimetype video.mimetype (strToL "video/mp4") }
    | none =>
    match msg.imageMessage with
    | some image =>
      let mimetype := cleanMimetype image.mimetype (strToL "image/jpeg")
      let ext := mimetypeToExt mimetype (strToL "jpg")
      { filename := id ++ '.' :: ext, caption := image.caption,
        mimetype := mimetype }
    | none =>
    match msg.documentMessage with
    | some doc =>
      let mimetype := cleanMimetype doc.mimetype (strToL "application/octet-stream")
      let filename :=
        if doc.fileName = [] then
          id ++ '.' :: mimetypeToExt mimetype (strToL "bin")
        else doc.fileName
      { filename := filename, caption := doc.caption, mimetype := mimetype }
    | none =>
      { filename := id ++ strToL ".bin", caption := [],
        mimetype := strToL "application/octet-stream" }

/-! ### `extractMessageText` (chatwoot_service.go 846–890) -/

/-- First match of the regexp `waid=(\d+)` inside a vcard: the maximal
digit run following the first occurrence of `"waid="` that is followed
by at least one digit. -/
def findWaid : List Char → Option (List Char)
  | [] => none
  | c :: rest =>
    if isPrefixB (strToL "waid=") (c :: rest) then
      let ds := ((c :: rest).drop 5).takeWhile Char.isDigit
      if ds = [] then findWaid rest else some ds
    else findWaid rest

/-- Contact-card and reaction tail of the Go if-chain in
`extractMessageText` (reached when no earlier branch returned). -/
def extractMessageTextTail (msg : WookMessage) : List Char :=
  match msg.contactMessage with
  | some cm =>
    let telefone := (findWaid cm.vcard).getD []
    strToL "Contato:\nNome: " ++ cm.displayName ++
      strToL "\nTelefone: " ++ telefone
  | none =>
    match msg.reactionMessage with
    | some rm => strToL "[Reação: " ++ rm.text ++ strToL "]"
    | none => []

/-- `if msg.DocumentMessage != nil { ... }` step of the chain. -/
def extractMessageTextDoc (msg : WookMessage) : List Char :=
  match msg.documentMessage with
  | some doc =>
    if doc.caption ≠ [] then doc.caption
    else if doc.fileName ≠ [] then
      strToL "[Documento: " ++ doc.fileName ++ strToL "]"
    else extractMessageTextTail msg
  | none => extractMessageTextTail msg

/-- `if msg.VideoMessage != nil && caption != "" { ... }` step. -/
def extractMessageTextVideo (msg : WookMessage) : List Char :=
  match msg.videoMessage with
  | some vm => if vm.caption ≠ [] then vm.caption else extractMessageTextDoc msg
  | none => extractMessageTextDoc msg

/-- `if msg.ImageMessage != nil && caption != "" { ... }` step. -/
def extractMessageTextImage (msg : WookMessage) : List Char :=
  match msg.imageMessage with
  | some im => if im.caption ≠ [] then im.caption else extractMessageTextVideo msg
  | none => extractMessageTextVideo msg

def extractMessageText (data : WookMessageData) : List Char :=
  match data.message with
  | none => []
  | some msg =>
    if msg.conversation ≠ [] then msg.conversation
    else extractMessageTextImage msg

/-! ### C6: classified mimetypes carry no `';'` -/

theorem semicolon_not_mem_takeUntil (s : List Char) :
    ';' ∉ takeUntilChar ';' s := by
  induction s with
  | nil => simp [takeUntilChar]
  | cons c rest ih =>
    simp only [takeUntilChar]
    by_cases hc : c = ';'
    · simp [hc]
    · simp [hc, ih]
      intro h
      exact hc h.symm

theorem mem_goTrimSpace {c : Char} {s : List Char} (h : c ∈ goTrimSpace s) :
    c ∈ s := by
  unfold goTrimSpace at h
  rw [List.mem_reverse] at h
  have h2 := (List.dropWhile_sublist (l := (s.dropWhile goIsSpace).reverse)
    (p := goIsSpace)).subset h
  rw [List.mem_reverse] at h2
  exact (List.dropWhile_sublist (l := s) (p := goIsSpace)).subset h2

theorem semicolon_not_mem_cleanMimetype {raw fallback : List Char}
    (hf : ';' ∉ fallback) : ';' ∉ cleanMimetype raw fallback := by
  unfold cleanMimetype
  split
  · exact hf
  · split
    · exact hf
    · intro hmem
      exact semicolon_not_mem_takeUntil raw (mem_goTrimSpace hmem)

/-- C6 (claim): for every inbound message of kind image, video, audio or
document, and every raw mimetype (parameters such as `"; codecs=opus"`
included), the mimetype returned by `extractMediaMeta` contains no `';'`
character. -/
theorem extractMediaMeta_mimetype_no_semicolon (data : WookMessageData)
    (msg : WookMessage) (hmsg : data.message = some msg)
    (_hkind : msg.audioMessage.isSome ∨ msg.videoMessage.isSome ∨
              msg.imageMessage.isSome ∨ msg.documentMessage.isSome) :
    ';' ∉ (extractMediaMeta data).mimetype := by
  clear _hkind
  obtain ⟨key, pn, mt, message, ts⟩ := data
  simp only at hmsg
  subst hmsg
  obtain ⟨conv, b64, im, au, vm, dm, cm, rm⟩ := msg
  cases au with
  | some audio =>
    simp only [extractMediaMeta]
    cases hogg : goContains audio.mimetype (strToL "ogg") with
    | true =>
      show ';' ∉ strToL "audio/ogg"
      decide
    | false =>
      cases hmp4 : goContains audio.mimetype (strToL "mp4") with
      | true =>
        show ';' ∉ strToL "audio/mp4"
        decide
      | false =>
        show ';' ∉ strToL "audio/ogg"
        decide
  | none =>
    cases vm with
    | some video =>
      show ';' ∉ cleanMimetype video.mimetype (strToL "video/mp4")
      exact semicolon_not_mem_cleanMimetype (by decide)
    | none =>
      cases im with
      | some image =>
        show ';' ∉ cleanMimetype image.mimetype (strToL "image/jpeg")
        exact semicolon_not_mem_cleanMimetype (by decide)
      | none =>
        cases dm with
        | some doc =>
          show ';' ∉ cleanMimetype doc.mimetype (strToL "application/octet-stream")
          exact semicolon_not_mem_cleanMimetype (by decide)
        | none =>
          show ';' ∉ strToL "application/octet-stream"
          decide

/-- Witness for C6: a concrete audio message whose raw mimetype carries a
`"; codecs=opus"` parameter. -/
theorem extractMediaMeta_mimetype_no_semicolon_witness :
    ';' ∉ (extractMediaMeta
      { key := some { remoteJid := strToL "5511@s.whatsapp.net",
                      fromMe := false, id := strToL "M1" },
        pushName := [], messageType := strToL "audio",
        message := some
          { conversation := [], base64 := strToL "QUJD",
            imageMessage := none,
            audioMessage := some { mimetype := strToL "audio/ogg; codecs=opus" },
            videoMessage := none, documentMessage := none,
            contactMessage := none, reactionMessage := none },
        messageTimestamp := 0 }).mimetype :=
  extractMediaMeta_mimetype_no_semicolon _ _ rfl (Or.inl rfl)

/-! ### C7: the audio branch of the classifier -/

/-- C7 (claim): for every audio message (classifier branch order is the
source order, so the `"ogg"` test is made first): raw mimetype containing
`"ogg"` gives `(audio/ogg, <id>.ogg)`; otherwise containing `"mp4"`
gives `(audio/mp4, <id>.m4a)`; any other raw mimetype gives the ogg
case; and the caption is always empty. -/
theorem extractMediaMeta_audio (data : WookMessageData) (msg : WookMessage)
    (a : AudioMsg) (k : WookKey)
    (hmsg : data.message = some msg) (haud : msg.audioMessage = some a)
    (hkey : data.key = some k) :
    (goContains a.mimetype (strToL "ogg") = true →
      extractMediaMeta data =
        { filename := k.id ++ strToL ".ogg", caption := [],
          mimetype := strToL "audio/ogg" }) ∧
    (goContains a.mimetype (strToL "ogg") = false →
      goContains a.mimetype (strToL "mp4") = true →
      extractMediaMeta data =
        { filename := k.id ++ strToL ".m4a", caption := [],
          mimetype := strToL "audio/mp4" }) ∧
    (goContains a.mimetype (strToL "ogg") = false →
      goContains a.mimetype (strToL "mp4") = false →
      extractMediaMeta data =
        { filename := k.id ++ strToL ".ogg", caption := [],
          mimetype := strToL "audio/ogg" }) ∧
    (extractMediaMeta data).caption = [] := by
  obtain ⟨key, pn, mt, message, ts⟩ := data
  simp only at hmsg hkey
  subst hmsg hkey
  obtain ⟨conv, b64, im, au, vm, dm, cm, rm⟩ := msg
  simp only at haud
  subst haud
  refine ⟨?_, ?_, ?_, ?_⟩
  · intro hogg
    simp [extractMediaMeta, hogg]
  · intro hogg hmp4
    simp [extractMediaMeta, hogg, hmp4]
  · intro hogg hmp4
    simp [extractMediaMeta, hogg, hmp4]
  · simp only [extractMediaMeta]
    split
    · rfl
    · split <;> rfl

/-- Witness for C7: the spec scenario — raw mimetype
`"audio/ogg; codecs=opus"`, message id `ABC123` — yields filename
`ABC123.ogg`, mimetype `audio/ogg`, empty caption. -/
theorem extractMediaMeta_audio_witness :
    extractMediaMeta
      { key := some { remoteJid := strToL "5511@s.whatsapp.net",
                      fromMe := false, id := strToL "ABC123" },
        pushName := [], messageType := strToL "audio",
        message := some
          { conversation := [], base64 := strToL "QUJD",
            imageMessage := none,
            audioMessage := some { mimetype := strToL "audio/ogg; codecs=opus" },
            videoMessage := none, documentMessage := none,
            contactMessage := none, reactionMessage := none },
        messageTimestamp := 0 } =
      { filename := strToL "ABC123.ogg", caption := [],
        mimetype := strToL "audio/ogg" } := by
  have h := (extractMediaMeta_audio
    { key := some { remoteJid := strToL "5511@s.whatsapp.net",
                    fromMe := false, id := strToL "ABC123" },
      pushName := [], messageType := strToL "audio",
      message := some
        { conversation := [], base64 := strToL "QUJD",
          imageMessage := none,
          audioMessage := some { mimetype := strToL "audio/ogg; codecs=opus" },
          videoMessage := none, documentMessage := none,
          contactMessage := none, reactionMessage := none },
      messageTimestamp := 0 }
    { conversation := [], base64 := strToL "QUJD",
      imageMessage := none,
      audioMessage := some { mimetype := strToL "audio/ogg; codecs=opus" },
      videoMessage := none, documentMessage := none,
      contactMessage := none, reactionMessage := none }
    { mimetype := strToL "audio/ogg; codecs=opus" }
    { remoteJid := strToL "5511@s.whatsapp.net",
      fromMe := false, id := strToL "ABC123" }
    rfl rfl rfl).1 (by decide)
  exact h

/-! ### Delivery dedup guard (`checkMessageExists`, chatwoot_service.go 271–324)

The persisted store behind `c.db` is modelled as a point-lookup oracle:
`present` stands for a row count `> 0`, `absent` for count `0`, and
`storeError` for a failing query.  `connected` models `c.db != nil`. -/

inductive LookupResult
  | present
  | absent
  | storeError
deriving DecidableEq

structure DedupStore where
  connected : Bool
  lookup : Int → List Char → LookupResult

/-- The `(bool, error)` outcomes `checkMessageExists` actually realises:
`found` is `(true, nil)`, `notFound` is `(false, nil)`, `failed` is
`(false, err)`. -/
inductive CheckResult
  | found
  | notFound
  | failed
deriving DecidableEq

/-- `checkMessageExists`, paired with whether the store was queried
(whether control reached `db.QueryRowContext`). -/
def checkMessageExists (store : DedupStore) (conversationID : Int)
    (sourceID : List Char) : CheckResult × Bool :=
  if store.connected = false then (CheckResult.notFound, false)
  else if conversationID ≤ 0 then (CheckResult.notFound, false)
  else
    match store.lookup conversationID sourceID with
    | LookupResult.present => (CheckResult.found, true)
    | LookupResult.absent => (CheckResult.notFound, true)
    | LookupResult.storeError => (CheckResult.failed, true)

/-! ### Desk-API operation traces -/

/-- External operations of the inbound dispatcher, in the order they are
issued.  `dedupQuery` is the store lookup; every other constructor is a
desk-API HTTP call; `postMessage` is the message-write call (JSON or
multipart). -/
inductive DeskOp
  | contactFilter (phone : List Char)
  | contactCreate (phone name identifier : List Char)
  | listConversations (contactID : Int)
  | createConversation (contactID inboxID : Int)
  | dedupQuery (conversationID : Int) (sourceID : List Char)
  | postMessage (conversationID : Int) (sourceID : List Char)
deriving DecidableEq

/-- Outcome of the message-write POST: 2xx, transport failure, or a
`>= 400` status. -/
inductive PostOutcome
  | ok
  | transportError
  | httpError
deriving DecidableEq

def PostOutcome.isOk : PostOutcome → Bool
  | PostOutcome.ok => true
  | _ => false

structure SendResult where
  ok : Bool
  ops : List DeskOp
deriving DecidableEq

/-- The dedup-check prefix of a send: the query op when the store was
actually consulted, nothing otherwise. -/
def dedupOps (store : DedupStore) (conversationID : Int)
    (sourceID : List Char) : List DeskOp :=
  if (checkMessageExists store conversationID sourceID).2 then
    [DeskOp.dedupQuery conversationID sourceID]
  else []

/-! ### `sendMessage` (556–618) and `sendMediaMessage` (621–717)

Both build `sourceID := "WAID:" + messageID`, consult
`checkMessageExists`, return `nil` without posting when it reports
`exists`, log-and-continue when it reports an error, then POST the
message; a transport failure or `>= 400` response is returned as the
error. -/

def sendMessage (store : DedupStore) (post : PostOutcome)
    (conversationID : Int) (content messageID : List Char)
    (isFromMe : Bool) : SendResult :=
  match (checkMessageExists store conversationID
          (strToL "WAID:" ++ messageID)).1 with
  | CheckResult.found =>
    { ok := true,
      ops := dedupOps store conversationID (strToL "WAID:" ++ messageID) }
  | _ =>
    { ok := post.isOk,
      ops := dedupOps store conversationID (strToL "WAID:" ++ messageID) ++
             [DeskOp.postMessage conversationID (strToL "WAID:" ++ messageID)] }

def sendMediaMessage (store : DedupStore) (post : PostOutcome)
    (conversationID : Int) (filename mimetype caption messageID : List Char)
    (isFromMe : Bool) : SendResult :=
  match (checkMessageExists store conversationID
          (strToL "WAID:" ++ messageID)).1 with
  | CheckResult.found =>
    { ok := true,
      ops := dedupOps store conversationID (strToL "WAID:" ++ messageID) }
  | _ =>
    { ok := post.isOk,
      ops := dedupOps store conversationID (strToL "WAID:" ++ messageID) ++
             [DeskOp.postMessage conversationID (strToL "WAID:" ++ messageID)] }

/-! ### C3: a recorded pair suppresses the second delivery -/

/-- C3 (claim): for every `(conversationID, sourceTag)` pair already in
the dedup store — store connected, lookup succeeding — a second delivery
posts nothing: both the text path (`sendMessage`) and the media path
(`sendMediaMessage`) stop after the dedup query and issue no
message-write call. -/
theorem recorded_pair_never_reposted
    (store : DedupStore) (post : PostOutcome) (conversationID : Int)
    (content filename mimetype caption messageID : List Char) (isFromMe : Bool)
    (hconn : store.connected = true) (hpos : 0 < conversationID)
    (hrec : store.lookup conversationID (strToL "WAID:" ++ messageID) =
            LookupResult.present) :
    sendMessage store post conversationID content messageID isFromMe =
      { ok := true,
        ops := [DeskOp.dedupQuery conversationID (strToL "WAID:" ++ messageID)] } ∧
    sendMediaMessage store post conversationID filename mimetype caption
        messageID isFromMe =
      { ok := true,
        ops := [DeskOp.dedupQuery conversationID (strToL "WAID:" ++ messageID)] } := by
  have hneg : ¬ conversationID ≤ 0 := by omega
  have hcheck : checkMessageExists store conversationID
      (strToL "WAID:" ++ messageID) = (CheckResult.found, true) := by
    simp [checkMessageExists, hconn, hneg, hrec]
  constructor <;>
    simp [sendMessage, sendMediaMessage, dedupOps, hcheck]

/-- Witness for C3 at a concrete connected store holding the pair
`(5, "WAID:M7")`. -/
theorem recorded_pair_never_reposted_witness :
    sendMessage
      { connected := true,
        lookup := fun c s =>
          if c = 5 ∧ s = strToL "WAID:M7" then LookupResult.present
          else LookupResult.absent }
      PostOutcome.ok 5 (strToL "hello") (strToL "M7") false =
      { ok := true, ops := [DeskOp.dedupQuery 5 (strToL "WAID:M7")] } := by
  have h := (recorded_pair_never_reposted
    { connected := true,
      lookup := fun c s =>
        if c = 5 ∧ s = strToL "WAID:M7" then LookupResult.present
        else LookupResult.absent }
    PostOutcome.ok 5 (strToL "hello") (strToL "f.ogg") (strToL "audio/ogg")
    [] (strToL "M7") false rfl (by decide) (by decide)).1
  exact h

/-! ### C4: the guard fails open -/

/-- C4 (claim): the dedup guard fails open.  (1) With no database handle
it reports absent, error-free, without querying.  (2) With
`conversationID ≤ 0` it reports absent without querying.  (3) When the
store lookup errors, both send paths still issue the message-write
POST — the lookup error never suppresses the send. -/
theorem dedup_guard_fails_open :
    (∀ (lookup : Int → List Char → LookupResult) (conversationID : Int)
       (sourceID : List Char),
      checkMessageExists { connected := false, lookup := lookup }
        conversationID sourceID = (CheckResult.notFound, false)) ∧
    (∀ (store : DedupStore) (conversationID : Int) (sourceID : List Char),
      conversationID ≤ 0 →
      checkMessageExists store conversationID sourceID =
        (CheckResult.notFound, false)) ∧
    (∀ (store : DedupStore) (post : PostOutcome) (conversationID : Int)
       (content filename mimetype caption messageID : List Char)
       (isFromMe : Bool),
      store.connected = true → 0 < conversationID →
      store.lookup conversationID (strToL "WAID:" ++ messageID) =
        LookupResult.storeError →
      (sendMessage store post conversationID content messageID
          isFromMe).ops =
        [DeskOp.dedupQuery conversationID (strToL "WAID:" ++ messageID),
         DeskOp.postMessage conversationID (strToL "WAID:" ++ messageID)] ∧
      (sendMediaMessage store post conversationID filename mimetype caption
          messageID isFromMe).ops =
        [DeskOp.dedupQuery conversationID (strToL "WAID:" ++ messageID),
         DeskOp.postMessage conversationID (strToL "WAID:" ++ messageID)]) := by
  refine ⟨?_, ?_, ?_⟩
  · intro lookup conversationID sourceID
    simp [checkMessageExists]
  · intro store conversationID sourceID hle
    by_cases hc : store.connected = false
    · simp [checkMessageExists, hc]
    · simp [checkMessageExists, hc, hle]
  · intro store post conversationID content filename mimetype caption
      messageID isFromMe hconn hpos herr
    have hneg : ¬ conversationID ≤ 0 := by omega
    have hcheck : checkMessageExists store conversationID
        (strToL "WAID:" ++ messageID) = (CheckResult.failed, true) := by
      simp [checkMessageExists, hconn, hneg, herr]
    constructor <;>
      simp [sendMessage, sendMediaMessage, dedupOps, hcheck]

/-- Witness for C4: all three fail-open behaviours at concrete inputs. -/
theorem dedup_guard_fails_open_witness :
    checkMessageExists { connected := false, lookup := fun _ _ => LookupResult.present }
      5 (strToL "WAID:M7") = (CheckResult.notFound, false) ∧
    checkMessageExists { connected := true, lookup := fun _ _ => LookupResult.present }
      0 (strToL "WAID:M7") = (CheckResult.notFound, false) ∧
    (sendMessage { connected := true, lookup := fun _ _ => LookupResult.storeError }
      PostOutcome.ok 5 (strToL "hi") (strToL "M7") false).ops =
      [DeskOp.dedupQuery 5 (strToL "WAID:M7"),
       DeskOp.postMessage 5 (strToL "WAID:M7")] := by
  refine ⟨?_, ?_, ?_⟩
  · exact dedup_guard_fails_open.1 (fun _ _ => LookupResult.present) 5 (strToL "WAID:M7")
  · exact dedup_guard_fails_open.2.1
      { connected := true, lookup := fun _ _ => LookupResult.present }
      0 (strToL "WAID:M7") (by omega)
  · exact (dedup_guard_fails_open.2.2
      { connected := true, lookup := fun _ _ => LookupResult.storeError }
      PostOutcome.ok 5 (strToL "hi") (strToL "f.ogg") (strToL "audio/ogg") []
      (strToL "M7") false rfl (by omega) rfl).1

/-! ### Desk-API response shapes (chatwoot_service.go 112–139) -/

/-- Abstraction of the JSON body of a successful contact-create response.
`directID` is the number at `payload.id` when the envelope carries the
contact directly; `nestedID` the one at `payload.contact.id` when it is
nested.  Go decodes into `struct{ Payload chatwootContact }` with
`chatwootContact{ ID int }`, so the decoded id is `payload.id` when
present and `0` otherwise — `encoding/json` silently ignores the unknown
`contact` key. -/
structure ContactCreateResp where
  directID : Option Int
  nestedID : Option Int

/-- The contact id `json.Unmarshal` leaves in
`chatwootContactCreateResponse.Payload.ID`. -/
def chatwootContactCreateDecode (resp : ContactCreateResp) : Int :=
  resp.directID.getD 0

structure ChatwootConversation where
  id : Int
  status : List Char
  inboxID : Int
deriving DecidableEq

/-- Environment supplying the desk API's responses and the configured
tenant inbox.  `none` in a response slot models a transport, read or
decode failure (or, for conversation creation, a `>= 400` status);
`filterResp` lists the ids in the contact-filter payload. -/
structure ChatwootEnv where
  enabled : Bool
  inboxID : Int
  filterResp : Option (List Int)
  createContactResp : Option ContactCreateResp
  convListResp : Option (List ChatwootConversation)
  createConvResp : Option Int
  store : DedupStore
  postOutcome : PostOutcome
  base64Ok : List Char → Bool

/-! ### Contact resolver (328–419) -/

/-- `searchContact`: POST the phone filter; on success return
`payload[0].ID` when the payload is non-empty, `0` otherwise. -/
def searchContact (env : ChatwootEnv) (phone : List Char) :
    Except Unit Int × List DeskOp :=
  match env.filterResp with
  | none => (Except.error (), [DeskOp.contactFilter phone])
  | some payload => (Except.ok (payload.headD 0), [DeskOp.contactFilter phone])

/-- `createContact`: POST the new contact; decode the envelope; reject a
non-positive decoded id (`"API retornou contactId inválido"`). -/
def createContact (env : ChatwootEnv) (phone name identifier : List Char) :
    Except Unit Int × List DeskOp :=
  match env.createContactResp with
  | none => (Except.error (), [DeskOp.contactCreate phone name identifier])
  | some resp =>
    if chatwootContactCreateDecode resp ≤ 0 then
      (Except.error (), [DeskOp.contactCreate phone name identifier])
    else
      (Except.ok (chatwootContactCreateDecode resp),
       [DeskOp.contactCreate phone name identifier])

def findOrCreateContact (env : ChatwootEnv) (phone name identifier : List Char) :
    Except Unit Int × List DeskOp :=
  match searchContact env phone with
  | (Except.error e, ops) => (Except.error e, ops)
  | (Except.ok id, ops) =>
    if 0 < id then (Except.ok id, ops)
    else
      match createContact env phone name identifier with
      | (r, ops2) => (r, ops ++ ops2)

/-! ### Conversation resolver (423–551) -/

/-- The selection loop of `findOpenConversation`: first conversation on
the configured inbox whose status is not `"resolved"`, else `0`. -/
def findOpenConvLoop (inboxID : Int) : List ChatwootConversation → Int
  | [] => 0
  | conv :: rest =>
    if conv.inboxID = inboxID ∧ conv.status ≠ strToL "resolved" then conv.id
    else findOpenConvLoop inboxID rest

def findOpenConversation (env : ChatwootEnv) (contactID : Int) :
    Except Unit Int × List DeskOp :=
  match env.convListResp with
  | none => (Except.error (), [DeskOp.listConversations contactID])
  | some payload =>
    (Except.ok (findOpenConvLoop env.inboxID payload),
     [DeskOp.listConversations contactID])

def createConversation (env : ChatwootEnv) (contactID : Int) :
    Except Unit Int × List DeskOp :=
  match env.createConvResp with
  | none => (Except.error (), [DeskOp.createConversation contactID env.inboxID])
  | some newID =>
    (Except.ok newID, [DeskOp.createConversation contactID env.inboxID])

def findOrCreateConversation (env : ChatwootEnv) (contactID : Int) :
    Except Unit Int × List DeskOp :=
  if contactID ≤ 0 then (Except.error (), [])
  else
    match findOpenConversation env contactID with
    | (Except.error e, ops) => (Except.error e, ops)
    | (Except.ok id, ops) =>
      if 0 < id then (Except.ok id, ops)
      else
        match createConversation env contactID with
        | (r, ops2) => (r, ops ++ ops2)

/-! ### C8: first-match selection, else create -/

/-- The reusability test of the selection loop as a Boolean predicate. -/
def reusableConv (inboxID : Int) (conv : ChatwootConversation) : Bool :=
  decide (conv.inboxID = inboxID ∧ conv.status ≠ strToL "resolved")

theorem findOpenConvLoop_eq_find (inboxID : Int)
    (l : List ChatwootConversation) :
    findOpenConvLoop inboxID l =
      ((l.find? (reusableConv inboxID)).map ChatwootConversation.id).getD 0 := by
  induction l with
  | nil => rfl
  | cons conv rest ih =>
    by_cases h : conv.inboxID = inboxID ∧ conv.status ≠ strToL "resolved"
    · have hb : reusableConv inboxID conv = true := by
        simp [reusableConv, h.1, h.2]
      simp [findOpenConvLoop, h, List.find?, hb]
    · have hb : reusableConv inboxID conv = false := by
        simp only [reusableConv, decide_eq_false_iff_not]
        exact h
      simp [findOpenConvLoop, h, List.find?, hb, ih]

/-- C8 (claim): `findOrCreateConversation` returns the id of the first
conversation in response order whose inbox id equals the tenant's inbox
and whose status is not `"resolved"`; when no conversation qualifies it
creates — bound to the contact and the tenant inbox — and returns the
new conversation. -/
theorem conversation_first_match_or_create
    (env : ChatwootEnv) (payload : List ChatwootConversation) (contactID : Int)
    (hlist : env.convListResp = some payload) (hpos : 0 < contactID) :
    (∀ conv, payload.find? (reusableConv env.inboxID) = some conv →
      0 < conv.id →
      findOrCreateConversation env contactID =
        (Except.ok conv.id, [DeskOp.listConversations contactID])) ∧
    (∀ newID, payload.find? (reusableConv env.inboxID) = none →
      env.createConvResp = some newID →
      findOrCreateConversation env contactID =
        (Except.ok newID,
         [DeskOp.listConversations contactID,
          DeskOp.createConversation contactID env.inboxID])) := by
  have hneg : ¬ contactID ≤ 0 := by omega
  constructor
  · intro conv hfind hid
    have hloop : findOpenConvLoop env.inboxID payload = conv.id := by
      rw [findOpenConvLoop_eq_find, hfind]; rfl
    simp [findOrCreateConversation, findOpenConversation, hneg, hlist,
      hloop, hid]
  · intro newID hfind hcreate
    have hloop : findOpenConvLoop env.inboxID payload = 0 := by
      rw [findOpenConvLoop_eq_find, hfind]; rfl
    simp [findOrCreateConversation, findOpenConversation, createConversation,
      hneg, hlist, hloop, hcreate]

/-- Witness for C8: the spec scenario — one `resolved` conversation on
the tenant inbox `7`, one `open` conversation on inbox `8` — has no
reusable match, so a new conversation bound to `(contact 3, inbox 7)` is
created and its id returned. -/
theorem conversation_first_match_or_create_witness :
    findOrCreateConversation
      { enabled := true, inboxID := 7, filterResp := none,
        createContactResp := none,
        convListResp := some
          [{ id := 10, status := strToL "resolved", inboxID := 7 },
           { id := 11, status := strToL "open", inboxID := 8 }],
        createConvResp := some 42,
        store := { connected := false, lookup := fun _ _ => LookupResult.absent },
        postOutcome := PostOutcome.ok, base64Ok := fun _ => true } 3 =
      (Except.ok 42,
       [DeskOp.listConversations 3, DeskOp.createConversation 3 7]) := by
  exact (conversation_first_match_or_create
    { enabled := true, inboxID := 7, filterResp := none,
      createContactResp := none,
      convListResp := some
        [{ id := 10, status := strToL "resolved", inboxID := 7 },
         { id := 11, status := strToL "open", inboxID := 8 }],
      createConvResp := some 42,
      store := { connected := false, lookup := fun _ _ => LookupResult.absent },
      postOutcome := PostOutcome.ok, base64Ok := fun _ => true }
    [{ id := 10, status := strToL "resolved", inboxID := 7 },
     { id := 11, status := strToL "open", inboxID := 8 }]
    3 rfl (by omega)).2 42 (by decide) rfl

/-! ### C9: which contact-create envelope shapes are accepted -/

/-- C9 counterexample: a create response carrying the new id only at
`payload.contact.id` (the nested envelope the spec says must be
tolerated) makes `findOrCreateContact` error instead of returning the
id — `json.Unmarshal` leaves `Payload.ID = 0` and `createContact`
rejects it. -/
theorem contact_create_nested_envelope_rejected :
    (findOrCreateContact
      { enabled := true, inboxID := 1, filterResp := some [],
        createContactResp := some { directID := none, nestedID := some 5 },
        convListResp := none, createConvResp := none,
        store := { connected := false, lookup := fun _ _ => LookupResult.absent },
        postOutcome := PostOutcome.ok, base64Ok := fun _ => true }
      (strToL "5511999") (strToL "Bob")
      (strToL "5511999@s.whatsapp.net")).1 = Except.error () := rfl

/-- C9 amended: contact creation tolerates only the direct envelope.  A
successful create response with a positive id directly at `payload.id`
yields that id; a response with the id only under `payload.contact.id`
decodes to `0` and is returned as an error. -/
theorem contact_create_direct_envelope_only
    (env : ChatwootEnv) (phone name identifier : List Char)
    (resp : ContactCreateResp)
    (hsearch : env.filterResp = some [])
    (hresp : env.createContactResp = some resp) :
    (∀ k, resp.directID = some k → 0 < k →
      (findOrCreateContact env phone name identifier).1 = Except.ok k) ∧
    (resp.directID = none →
      (findOrCreateContact env phone name identifier).1 = Except.error ()) := by
  constructor
  · intro k hdirect hk
    have hneg : ¬ chatwootContactCreateDecode resp ≤ 0 := by
      simp [chatwootContactCreateDecode, hdirect]; omega
    have hkneg : ¬ k ≤ 0 := by omega
    simp [findOrCreateContact, searchContact, createContact, hsearch, hresp,
      hneg, chatwootContactCreateDecode, hdirect, hkneg]
  · intro hdirect
    have hz : chatwootContactCreateDecode resp = 0 := by
      simp [chatwootContactCreateDecode, hdirect]
    simp [findOrCreateContact, searchContact, createContact, hsearch, hresp, hz]

/-- Witness for the C9 amended claim: a direct envelope `payload.id = 9`
is accepted, a nested-only envelope is rejected. -/
theorem contact_create_direct_envelope_only_witness :
    (findOrCreateContact
      { enabled := true, inboxID := 1, filterResp := some [],
        createContactResp := some { directID := some 9, nestedID := none },
        convListResp := none, createConvResp := none,
        store := { connected := false, lookup := fun _ _ => LookupResult.absent },
        postOutcome := PostOutcome.ok, base64Ok := fun _ => true }
      (strToL "5511999") (strToL "Bob")
      (strToL "5511999@s.whatsapp.net")).1 = Except.ok 9 :=
  (contact_create_direct_envelope_only
    { enabled := true, inboxID := 1, filterResp := some [],
      createContactResp := some { directID := some 9, nestedID := none },
      convListResp := none, createConvResp := none,
      store := { connected := false, lookup := fun _ _ => LookupResult.absent },
      postOutcome := PostOutcome.ok, base64Ok := fun _ => true }
    (strToL "5511999") (strToL "Bob") (strToL "5511999@s.whatsapp.net")
    { directID := some 9, nestedID := none } rfl rfl).1 9 rfl (by omega)

/-! ### `HandleMessage` (chatwoot_service.go 143–267)

The inbound dispatcher, as the list of external operations it performs.
A `nil` pointer argument is `none`.  The Go function in full:
enabled-flag gate, nil checks, phone normalization, contact then
conversation resolution with validity checks, then the media path
(base64 decode + `sendMediaMessage`) when `msg.Base64` is non-empty,
else the text path (`extractMessageText` + `sendMessage`). -/

def handleMessage (env : ChatwootEnv) (md : Option WookMessageData) :
    List DeskOp :=
  if env.enabled = false then []
  else
    match md with
    | none => []
    | some messageData =>
      match messageData.key with
      | none => []
      | some key =>
        let isFromMe := key.fromMe
        let phone := extractPhone key.remoteJid
        if phone = [] then []
        else
          let pushName :=
            if messageData.pushName = [] then phone else messageData.pushName
          let messageID := key.id
          match findOrCreateContact env phone pushName key.remoteJid with
          | (Except.error _, ops1) => ops1
          | (Except.ok contactID, ops1) =>
            if contactID ≤ 0 then ops1
            else
              match findOrCreateConversation env contactID with
              | (Except.error _, ops2) => ops1 ++ ops2
              | (Except.ok conversationID, ops2) =>
                if conversationID ≤ 0 then ops1 ++ ops2
                else
                  match messageData.message with
                  | none => ops1 ++ ops2
                  | some msg =>
                    if msg.base64 ≠ [] then
                      if env.base64Ok msg.base64 = false then ops1 ++ ops2
                      else
                        ops1 ++ ops2 ++
                          (sendMediaMessage env.store env.postOutcome
                            conversationID
                            (extractMediaMeta messageData).filename
                            (extractMediaMeta messageData).mimetype
                            (extractMediaMeta messageData).caption
                            messageID isFromMe).ops
                    else
                      if extractMessageText messageData = [] then ops1 ++ ops2
                      else
                        ops1 ++ ops2 ++
                          (sendMessage env.store env.postOutcome
                            conversationID
                            (extractMessageText messageData)
                            messageID isFromMe).ops

/-! ### C10: the early guards perform no desk-API operation -/

/-- C10 (claim): when the message is `nil`, its key is `nil`, or the
remote peer id normalizes to an empty phone, `HandleMessage` returns
without any desk-API operation: no contact search/create, no
conversation list/create, no message write. -/
theorem handleMessage_early_guards_no_ops (env : ChatwootEnv) :
    (handleMessage env none = []) ∧
    (∀ d : WookMessageData, d.key = none → handleMessage env (some d) = []) ∧
    (∀ (d : WookMessageData) (k : WookKey), d.key = some k →
      extractPhone k.remoteJid = [] → handleMessage env (some d) = []) := by
  refine ⟨?_, ?_, ?_⟩
  · by_cases he : env.enabled = false <;> simp [handleMessage, he]
  · intro d hkey
    by_cases he : env.enabled = false <;> simp [handleMessage, he, hkey]
  · intro d k hkey hphone
    by_cases he : env.enabled = false <;> simp [handleMessage, he, hkey, hphone]

/-- Witness for C10: a concrete message whose peer id starts with `'@'`
normalizes to the empty phone, and nothing is called. -/
theorem handleMessage_early_guards_no_ops_witness :
    handleMessage
      { enabled := true, inboxID := 7, filterResp := some [12],
        createContactResp := none,
        convListResp := some [{ id := 33, status := strToL "open", inboxID := 7 }],
        createConvResp := some 42,
        store := { connected := false, lookup := fun _ _ => LookupResult.absent },
        postOutcome := PostOutcome.ok, base64Ok := fun _ => true }
      (some { key := some { remoteJid := strToL "@s.whatsapp.net",
                            fromMe := false, id := strToL "M1" },
              pushName := [], messageType := strToL "conversation",
              message := none, messageTimestamp := 0 }) = [] :=
  (handleMessage_early_guards_no_ops _).2.2
    { key := some { remoteJid := strToL "@s.whatsapp.net",
                    fromMe := false, id := strToL "M1" },
      pushName := [], messageType := strToL "conversation",
      message := none, messageTimestamp := 0 }
    { remoteJid := strToL "@s.whatsapp.net", fromMe := false,
      id := strToL "M1" }
    rfl (by decide)

/-! ### C2: there is no staleness filter -/

/-- C2 counterexample: an inbound text message whose network-supplied
timestamp is 40 seconds in the past (timestamp 960, received at 1000,
threshold 30s) is *not* dropped before contact resolution: the contact
filter call — and the message write itself — are both performed. -/
theorem stale_message_reaches_contact_resolution :
    DeskOp.contactFilter (strToL "5511999999999") ∈
      handleMessage
        { enabled := true, inboxID := 7, filterResp := some [12],
          createContactResp := none,
          convListResp := some [{ id := 33, status := strToL "open", inboxID := 7 }],
          createConvResp := none,
          store := { connected := false, lookup := fun _ _ => LookupResult.absent },
          postOutcome := PostOutcome.ok, base64Ok := fun _ => true }
        (some { key := some { remoteJid := strToL "5511999999999@s.whatsapp.net",
                              fromMe := false, id := strToL "MSGID1" },
                pushName := strToL "Alice",
                messageType := strToL "conversation",
                message := some
                  { conversation := strToL "hello", base64 := [],
                    imageMessage := none, audioMessage := none,
                    videoMessage := none, documentMessage := none,
                    contactMessage := none, reactionMessage := none },
                messageTimestamp := 960 }) ∧
    DeskOp.postMessage 33 (strToL "WAID:MSGID1") ∈
      handleMessage
        { enabled := true, inboxID := 7, filterResp := some [12],
          createContactResp := none,
          convListResp := some [{ id := 33, status := strToL "open", inboxID := 7 }],
          createConvResp := none,
          store := { connected := false, lookup := fun _ _ => LookupResult.absent },
          postOutcome := PostOutcome.ok, base64Ok := fun _ => true }
        (some { key := some { remoteJid := strToL "5511999999999@s.whatsapp.net",
                              fromMe := false, id := strToL "MSGID1" },
                pushName := strToL "Alice",
                messageType := strToL "conversation",
                message := some
                  { conversation := strToL "hello", base64 := [],
                    imageMessage := none, audioMessage := none,
                    videoMessage := none, documentMessage := none,
                    contactMessage := none, reactionMessage := none },
                messageTimestamp := 960 }) := by
  constructor <;> decide

/-- C2 amended: `HandleMessage` applies no staleness threshold at all —
its behaviour is completely independent of the network-supplied
timestamp, so a message 40 seconds old is processed exactly like a
fresh one, contact resolution included. -/
theorem handleMessage_ignores_timestamp (env : ChatwootEnv)
    (d : WookMessageData) (t : Int) :
    handleMessage env (some { d with messageTimestamp := t }) =
      handleMessage env (some d) := rfl

/-! ### Outbound dispatcher

Two webhook controllers handle the desk's `message_created` events:
`handleTextMessage` (server/controllers/chatwoot.go 160–293) and the
sibling controller's `handleOutgoingMessage`.  Both are modelled as the
list of messaging-capability calls they make; presence set/clear errors
are logged in Go without changing control flow, so each `ChatPresence`
call appears in the trace whether or not it succeeds.  `numberToJid` /
`types.ParseJID` and the instance repository are external collaborators,
abstracted as environment flags. -/

inductive Presence
  | composing
  | paused
deriving DecidableEq

inductive WaOp
  | chatPresence (p : Presence)
  | sendText (text : List Char)
  | sendImage (url caption : List Char)
  | sendAudio (url : List Char)
  | sendDocument (url caption mimetype : List Char)
deriving DecidableEq

/-! #### `handleTextMessage` (chatwoot.go 160–293) -/

structure TextWebhook where
  senderPhoneNumber : List Char
  contactInboxSourceID : List Char
  content : List Char
  senderName : List Char
deriving DecidableEq

structure OutboundTextEnv where
  jidOk : Bool
  sendOk : Bool

/-- The phone cleanup of `handleTextMessage`: segment before `'@'`, then
strip `'+'`, spaces, `'-'`, `'('`, `')'`. -/
def cleanPhoneNumber (chatId : List Char) : List Char :=
  goReplaceAll (strToL ")") [] (goReplaceAll (strToL "(") []
    (goReplaceAll (strToL "-") [] (goReplaceAll (strToL " ") []
      (goReplaceAll (strToL "+") []
        ((splitOnChar '@' chatId).headD [])))))

/-- `handleTextMessage`: chat-id fallback, phone cleanup, jid
conversion, markdown conversion and signature, composing presence, send,
paused presence — where the paused call is reached only after a
successful `SendText` (the error branch returns immediately). -/
def handleTextMessage (env : OutboundTextEnv) (w : TextWebhook) :
    List WaOp :=
  let chatId := if w.senderPhoneNumber = [] then w.contactInboxSourceID
                else w.senderPhoneNumber
  if chatId = [] then []
  else if env.jidOk = false then []
  else
    let messageText0 := goReplaceAll (strToL "**") (strToL "*") w.content
    let messageText :=
      if w.senderName ≠ [] then
        strToL "*" ++ w.senderName ++ strToL ":*\n" ++ messageText0
      else messageText0
    if env.sendOk = false then
      [WaOp.chatPresence Presence.composing, WaOp.sendText messageText]
    else
      [WaOp.chatPresence Presence.composing, WaOp.sendText messageText,
       WaOp.chatPresence Presence.paused]

/-! #### `handleOutgoingMessage` (sibling controller) -/

structure OutAttachment where
  fileType : List Char
  dataURL : List Char
deriving DecidableEq

structure OutMessage where
  attachments : List OutAttachment
deriving DecidableEq

structure OutWebhook where
  senderIdentifier : List Char
  contactInboxSourceID : List Char
  senderPhoneNumber : List Char
  content : List Char
  messages : List OutMessage

structure OutboundEnv where
  parseOk : Bool
  instanceFound : Bool
  attachOk : Nat → Bool

/-- `getJIDFromWebhook`'s identifier fallback chain: explicit sender
identifier, contact-inbox source id, then phone number stripped of `'+'`
with the network domain appended. -/
def getIdentifier (w : OutWebhook) : List Char :=
  if w.senderIdentifier ≠ [] then w.senderIdentifier
  else if w.contactInboxSourceID ≠ [] then w.contactInboxSourceID
  else if w.senderPhoneNumber ≠ [] then
    goTrimPrefix w.senderPhoneNumber (strToL "+") ++ strToL "@s.whatsapp.net"
  else []

/-- `sendAttachments`' per-attachment routing by mime-category prefix. -/
def attachmentOp (content : List Char) (a : OutAttachment) : WaOp :=
  if isPrefixB (strToL "image/") a.fileType then WaOp.sendImage a.dataURL content
  else if isPrefixB (strToL "audio/") a.fileType then WaOp.sendAudio a.dataURL
  else WaOp.sendDocument a.dataURL content a.fileType

/-- Inner attachment loop: sends in order, stops at the first failure
(`env.attachOk i` is the success of the `i`-th send overall). -/
def sendAttachmentList (env : OutboundEnv) (content : List Char) :
    List OutAttachment → Nat → Bool × List WaOp
  | [], _ => (true, [])
  | a :: rest, i =>
    if env.attachOk i then
      match sendAttachmentList env content rest (i + 1) with
      | (ok, ops) => (ok, attachmentOp content a :: ops)
    else (false, [attachmentOp content a])

/-- Outer loop of `sendAttachments` over the conversation's messages. -/
def sendAttachmentsOps (env : OutboundEnv) (content : List Char) :
    List OutMessage → Nat → Bool × List WaOp
  | [], _ => (true, [])
  | m :: rest, i =>
    match sendAttachmentList env content m.attachments i with
    | (true, ops) =>
      match sendAttachmentsOps env content rest (i + m.attachments.length) with
      | (ok, ops2) => (ok, ops ++ ops2)
    | (false, ops) => (false, ops)

/-- `handleOutgoingMessage`: jid resolution, instance lookup, composing
presence, typing delay, attachment or text dispatch, then the paused
presence — issued before the send error (if any) is examined, on every
path past the composing call. -/
def handleOutgoingMessage (env : OutboundEnv) (w : OutWebhook) :
    List WaOp :=
  if getIdentifier w = [] then []
  else if env.parseOk = false then []
  else if env.instanceFound = false then []
  else
    WaOp.chatPresence Presence.composing ::
      (if w.messages ≠ [] ∧
          (w.messages.headD { attachments := [] }).attachments ≠ [] then
        (sendAttachmentsOps env w.content w.messages 0).2
      else if w.content ≠ [] then
        [WaOp.sendText (goReplaceAll (strToL "**") (strToL "*") w.content)]
      else []) ++
      [WaOp.chatPresence Presence.paused]

/-! ### C1: is the paused presence cleared on every exit path? -/

/-- C1: on the send-failure exit path of `handleTextMessage` the
composing presence has been entered but the paused call is never made —
while `handleOutgoingMessage`, on its own send-failure path, does end
with the paused call.  Concrete failing input: an outgoing text webhook
(phone `+5548986133374`, content `hi`) whose network send errors. -/
theorem presence_paused_skipped_on_send_error :
    WaOp.chatPresence Presence.composing ∈
      handleTextMessage { jidOk := true, sendOk := false }
        { senderPhoneNumber := strToL "+5548986133374",
          contactInboxSourceID := [], content := strToL "hi",
          senderName := [] } ∧
    WaOp.chatPresence Presence.paused ∉
      handleTextMessage { jidOk := true, sendOk := false }
        { senderPhoneNumber := strToL "+5548986133374",
          contactInboxSourceID := [], content := strToL "hi",
          senderName := [] } ∧
    (handleOutgoingMessage
        { parseOk := true, instanceFound := true, attachOk := fun _ => false }
        { senderIdentifier := strToL "5548986133374@s.whatsapp.net",
          contactInboxSourceID := [], senderPhoneNumber := [],
          content := strToL "hi",
          messages := [{ attachments :=
            [{ fileType := strToL "image/png",
               dataURL := strToL "https://desk/img.png" }] }] }).getLast? =
      some (WaOp.chatPresence Presence.paused) := by
  refine ⟨?_, ?_, ?_⟩ <;> decide

end Whatsmiau
